import Mathlib

/-!
Shallow embedding of the fixed-shape synchronous TensorRT inference script
(script/engine_inference.py) and of the preprocessing function of the
alternate ONNX-runtime backend (script/onnx_inference.py).

Numeric tensor values are modelled as rationals, the standard idealisation of
the float32 arithmetic of the source; decoded 8-bit images carry
natural-number channel values.  Stateful code (the buffer pair, the device
allocations, the release path) is modelled by explicit state passing, with an
event trace recording the order of the externally visible operations, so that
ordering claims of the specification can be settled.
-/

/-- Element type of a numpy array, as far as the scripts inspect it. -/
inductive DType
  | float32
  | float64
  | int64
  deriving DecidableEq

/-- A numpy array: shape, element type and flat row-major contents. -/
structure NTensor where
  shape : List Nat
  dtype : DType
  data : List ℚ
  deriving DecidableEq

/-- INPUT_SHAPE = (1, 3, 224, 224) of engine_inference.py. -/
def INPUT_SHAPE : List Nat := [1, 3, 224, 224]

/-- OUTPUT_SHAPE = (1, 1000) of engine_inference.py. -/
def OUTPUT_SHAPE : List Nat := [1, 1000]

/-- MEAN = [0.485, 0.456, 0.406] of engine_inference.py. -/
def MEAN : List ℚ := [485/1000, 456/1000, 406/1000]

/-- STD = [0.229, 0.224, 0.225] of engine_inference.py. -/
def STD : List ℚ := [229/1000, 224/1000, 225/1000]

/-- A decoded 8-bit image as produced by cv2.imread: height, width, and a
channel-indexed pixel function, in the channel order of the decoder (BGR). -/
structure Image where
  h : Nat
  w : Nat
  pix : Nat → Nat → Nat → ℕ

/-- Modelled from the external imaging library: cv2.cvtColor with
COLOR_BGR2RGB reverses the channel order of every pixel. -/
def cvtColorBGR2RGB (im : Image) : Image :=
  { h := im.h, w := im.w, pix := fun i j c => im.pix i j (2 - c) }

/-- Rounding of a rational to the nearest natural number (half up), used by
the modelled resize kernel when producing 8-bit pixels. -/
def roundQ (x : ℚ) : ℕ := (⌊x + 1/2⌋).toNat

/-- Modelled from the external imaging library: the source pixel pair and
interpolation weight used for one output index of a bilinear resize. -/
def srcCoord (outSize srcSize i : Nat) : ℕ × ℕ × ℚ :=
  let pos : ℚ := ((i : ℚ) + 1/2) * srcSize / outSize - 1/2
  let lo : ℕ := min pos.floor.toNat (srcSize - 1)
  let hi : ℕ := min (lo + 1) (srcSize - 1)
  (lo, hi, pos - pos.floor)

/-- Modelled from the external imaging library: transforms.Resize((H, W)) on
a PIL image.  The library returns the image unchanged when the size already
matches; otherwise it produces an image of the target size whose pixels are
convex bilinear combinations of source pixels, rounded back to 8 bits.  No
claim of this development depends on the exact interpolation kernel. -/
def resizeImg (H W : Nat) (im : Image) : Image :=
  if im.h = H ∧ im.w = W then im
  else
    { h := H, w := W,
      pix := fun i j c =>
        let pi := srcCoord H im.h i
        let pj := srcCoord W im.w j
        roundQ ((1 - pi.2.2) * ((1 - pj.2.2) * im.pix pi.1 pj.1 c
              + pj.2.2 * im.pix pi.1 pj.2.1 c)
          + pi.2.2 * ((1 - pj.2.2) * im.pix pi.2.1 pj.1 c
              + pj.2.2 * im.pix pi.2.1 pj.2.1 c)) }

/-- Modelled from the external imaging library: transforms.CenterCrop((th, tw))
keeps the centred th by tw window of the image. -/
def centerCrop (th tw : Nat) (im : Image) : Image :=
  { h := th, w := tw,
    pix := fun i j c => im.pix (i + (im.h - th) / 2) (j + (im.w - tw) / 2) c }

/-- A C by H by W float tensor, the intermediate form of the transform
pipeline. -/
structure CHW where
  ch : Nat
  h : Nat
  w : Nat
  val : Nat → Nat → Nat → ℚ

/-- Modelled from the external imaging library: transforms.ToTensor() turns
an H by W by C 8-bit image into a C by H by W float tensor with values scaled
to the unit interval (division by 255). -/
def toTensorT (im : Image) : CHW :=
  { ch := 3, h := im.h, w := im.w, val := fun c i j => (im.pix i j c : ℚ) / 255 }

/-- Modelled from the external imaging library: transforms.Normalize(mean, std)
maps each channel value x to (x - mean[c]) / std[c]. -/
def normalizeT (mean std : List ℚ) (t : CHW) : CHW :=
  { t with val := fun c i j => (t.val c i j - mean.getD c 0) / std.getD c 0 }

/-- The .numpy()[np.newaxis, ...].astype(np.float32) step (equivalently
np.expand_dims(..., axis=0).astype(np.float32) in the onnx backend): flatten
the C by H by W tensor row-major and add the leading batch axis. -/
def flattenNCHW (t : CHW) : NTensor :=
  { shape := [1, t.ch, t.h, t.w],
    dtype := DType.float32,
    data := (List.range (t.ch * t.h * t.w)).map fun idx =>
      t.val (idx / (t.h * t.w)) (idx % (t.h * t.w) / t.w) (idx % t.w) }

/-- Failure modes of the two preprocessing functions: the engine backend
raises FileNotFoundError when cv2.imread fails (the ImageReadError of the
specification); the onnx backend has no such check and instead an error is
raised inside cv2.cvtColor when it receives the failed decode. -/
inductive PreErr
  | imageReadError
  | cvtColorError
  deriving DecidableEq

/-- preprocess of engine_inference.py.  The filesystem read and decode
(cv2.imread) is abstracted as the Option Image argument: none models a failed
decode.  On success the fixed transform pipeline runs: BGR to RGB, resize to
256 by 256, centre crop to 224 by 224, scale to the unit interval, normalise
per channel with MEAN and STD, then add the batch axis as float32. -/
def preprocess (decoded : Option Image) : Except PreErr NTensor :=
  match decoded with
  | none => Except.error PreErr.imageReadError
  | some img =>
      Except.ok (flattenNCHW (normalizeT MEAN STD
        (toTensorT (centerCrop 224 224 (resizeImg 256 256 (cvtColorBGR2RGB img))))))

namespace onnx

/-- INPUT_SHAPE = (3, 224, 224) of onnx_inference.py. -/
def INPUT_SHAPE : List Nat := [3, 224, 224]

/-- BATCH_SIZE = 1 of onnx_inference.py. -/
def BATCH_SIZE : Nat := 1

/-- MEAN = [0.485, 0.456, 0.406] of onnx_inference.py. -/
def MEAN : List ℚ := [485/1000, 456/1000, 406/1000]

/-- STD = [0.229, 0.224, 0.225] of onnx_inference.py. -/
def STD : List ℚ := [229/1000, 224/1000, 225/1000]

end onnx

/-- preprocess_image of onnx_inference.py: the identical transform pipeline,
with its crop size taken from onnx.INPUT_SHAPE, but with no None check after
cv2.imread — a failed decode flows into cv2.cvtColor, which raises its own
error rather than the image-read error of the engine backend. -/
def preprocess_image (decoded : Option Image) : Except PreErr NTensor :=
  match decoded with
  | none => Except.error PreErr.cvtColorError
  | some img =>
      Except.ok (flattenNCHW (normalizeT onnx.MEAN onnx.STD
        (toTensorT (centerCrop (onnx.INPUT_SHAPE.getD 1 0) (onnx.INPUT_SHAPE.getD 2 0)
          (resizeImg 256 256 (cvtColorBGR2RGB img))))))

/-- Named storage locations touched by one inference call: the input array of
the caller and the four fixed buffers of the executor (pinned host input and
output, device input and output). -/
inductive Loc
  | argIn
  | hIn
  | hOut
  | dIn
  | dOut
  deriving DecidableEq

/-- The array stored at each location. -/
def Mem : Type := Loc → NTensor

/-- Overwrite the contents (data only) of the array at location l; the shape
and dtype of the destination array are untouched, as with np.copyto and the
raw byte copies of the driver. -/
def writeData (m : Mem) (l : Loc) (d : List ℚ) : Mem :=
  fun x => if x = l then { m x with data := d } else m x

/-- The fixed binding list [int(self.d_input), int(self.d_output)]: the input
device buffer at index 0, the output device buffer at index 1. -/
def bindings : List Loc := [Loc.dIn, Loc.dOut]

/-- Runtime state of a SyncTRTInfer object together with the array of the
caller.  engine and context record whether the respective attribute holds a
live object (true) or None; allocated records whether _allocate_fixed_memory
ran to completion, that is whether the buffer attributes exist at all; the two
freed flags mirror the validity flag pycuda keeps for each device allocation.
The shape and dtype of the caller array are values in mem at Loc.argIn; the
script never assigns to them. -/
structure SyncTRTInfer where
  engine : Bool
  context : Bool
  allocated : Bool
  dInFreed : Bool
  dOutFreed : Bool
  mem : Mem

/-- Externally visible operations of one infer call, in program order. -/
inductive InfEvent
  | copyInputToHost
  | memcpyHtoD
  | executeV2
  | memcpyDtoH
  | reshapeOutput
  deriving DecidableEq

/-- The ValueError raised by the shape and dtype validation of infer. -/
inductive InferErr
  | shapeMismatch
  deriving DecidableEq

/-- infer of SyncTRTInfer.  engineFn is the abstract computation the compiled
plan performs on the device input buffer; the script ignores the status
returned by execute_v2, so the accelerator call is modelled as a total
function.  The body is the literal statement sequence of the source: validate
shape and dtype, else raise; copy the flattened input into the pinned host
input buffer; synchronous host to device copy; execute_v2 against the fixed
binding pair; synchronous device to host copy; reshape the flat host output
to OUTPUT_SHAPE and return it. -/
def SyncTRTInfer.infer (engineFn : List ℚ → List ℚ) (s : SyncTRTInfer) :
    SyncTRTInfer × List InfEvent × Except InferErr NTensor :=
  if (s.mem Loc.argIn).shape = INPUT_SHAPE ∧ (s.mem Loc.argIn).dtype = DType.float32 then
    let m1 := writeData s.mem Loc.hIn (s.mem Loc.argIn).data
    let m2 := writeData m1 Loc.dIn (m1 Loc.hIn).data
    let m3 := writeData m2 (bindings.getD 1 Loc.dOut)
      (engineFn (m2 (bindings.getD 0 Loc.dIn)).data)
    let m4 := writeData m3 Loc.hOut (m3 Loc.dOut).data
    ({ s with mem := m4 },
      [InfEvent.copyInputToHost, InfEvent.memcpyHtoD, InfEvent.executeV2,
        InfEvent.memcpyDtoH, InfEvent.reshapeOutput],
      Except.ok { shape := OUTPUT_SHAPE
                  dtype := (m4 Loc.hOut).dtype
                  data := (m4 Loc.hOut).data })
  else (s, [], Except.error InferErr.shapeMismatch)

/-- Externally visible operations of one release call, in program order:
free of the input device buffer, free of the output device buffer, clearing
of the engine attribute, clearing of the context attribute. -/
inductive RelEvent
  | freeDIn
  | freeDOut
  | clearEngine
  | clearContext
  deriving DecidableEq

/-- Failures release can raise: the pycuda LogicError thrown when free is
called on an already freed device allocation, and the AttributeError raised
when the buffer attributes were never created because construction failed
before _allocate_fixed_memory completed. -/
inductive PyErr
  | logicErrorDoubleFree
  | attributeError
  deriving DecidableEq

/-- release of SyncTRTInfer, the literal statement sequence of the source:
self.d_input.free(), self.d_output.free(), self.engine = None,
self.context = None.  Each free raises when its allocation is already freed
(pycuda guards the underlying driver call), and the very first attribute
access raises when the buffers were never allocated; an exception propagates
immediately, leaving the remaining statements unexecuted. -/
def SyncTRTInfer.release (s : SyncTRTInfer) :
    SyncTRTInfer × List RelEvent × Except PyErr Unit :=
  if s.allocated then
    if s.dInFreed then (s, [], Except.error PyErr.logicErrorDoubleFree)
    else
      let s1 : SyncTRTInfer := { s with dInFreed := true }
      if s1.dOutFreed then (s1, [RelEvent.freeDIn], Except.error PyErr.logicErrorDoubleFree)
      else
        ({ s1 with dOutFreed := true, engine := false, context := false },
          [RelEvent.freeDIn, RelEvent.freeDOut, RelEvent.clearEngine,
            RelEvent.clearContext],
          Except.ok ())
  else (s, [], Except.error PyErr.attributeError)

/-- The finally block of the entry point: release is invoked exactly when the
name trt_infer is bound in locals(), that is exactly when the constructor ran
to completion; a construction failure leaves the name unbound and release is
skipped. -/
def mainFinally (boundExec : Option SyncTRTInfer) :
    Option (SyncTRTInfer × List RelEvent × Except PyErr Unit) :=
  boundExec.map SyncTRTInfer.release

/-- A freshly constructed executor: plan and handle live, buffer pairs
allocated (the pagelocked buffers are modelled zero initialised), nothing
freed, and no caller array yet. -/
def freshExec : SyncTRTInfer :=
  { engine := true, context := true, allocated := true,
    dInFreed := false, dOutFreed := false,
    mem := fun l =>
      match l with
      | Loc.argIn => { shape := [], dtype := DType.float32, data := [] }
      | Loc.hIn =>
          { shape := [1 * 3 * 224 * 224], dtype := DType.float32
            data := List.replicate (1 * 3 * 224 * 224) 0 }
      | Loc.hOut =>
          { shape := [1000], dtype := DType.float32, data := List.replicate 1000 0 }
      | Loc.dIn =>
          { shape := [1 * 3 * 224 * 224], dtype := DType.float32
            data := List.replicate (1 * 3 * 224 * 224) 0 }
      | Loc.dOut =>
          { shape := [1000], dtype := DType.float32, data := List.replicate 1000 0 } }

/-- An executor whose construction failed partway: the plan was loaded and
the context created, but _allocate_fixed_memory never completed, so the
buffer attributes do not exist. -/
def halfBuilt : SyncTRTInfer :=
  { engine := true, context := true, allocated := false,
    dInFreed := false, dOutFreed := false,
    mem := fun _ => { shape := [], dtype := DType.float32, data := [] } }

/-- A solid colour 256 by 256 image whose decoded (BGR ordered) channels are
b, g, r — that is, an RGB image of the constant colour (r, g, b). -/
def solidImage256 (r g b : ℕ) : Image :=
  { h := 256, w := 256,
    pix := fun _ _ c => if c = 0 then b else if c = 1 then g else r }

/-- Mean over channel c of a (1,3,224,224) tensor stored row-major: the
average of the 224 * 224 entries of that channel. -/
def channelMean (t : NTensor) (c : Nat) : ℚ :=
  (∑ i ∈ Finset.range (224 * 224), t.data.getD (c * (224 * 224) + i) 0) / (224 * 224)

/-- C2 counterexample: on a freshly constructed executor the second of two
consecutive release calls fails — pycuda raises its logic error on the
already freed input device buffer — refuting the claim that a repeated
release never fails. -/
theorem release_twice_cex :
    (SyncTRTInfer.release (SyncTRTInfer.release freshExec).1).2.2 =
      Except.error PyErr.logicErrorDoubleFree := rfl

/-- C2 (amended): the first release on a live executor succeeds, and an
immediately repeated release fails with the double-free logic error while
performing no action at all — the buffer wrapper raises before any device
memory could be freed a second time, so release is not idempotent but a
physical double free still cannot happen. -/
theorem release_twice_second_errors (s : SyncTRTInfer)
    (hA : s.allocated = true) (hI : s.dInFreed = false) (hO : s.dOutFreed = false) :
    s.release.2.2 = Except.ok () ∧
    s.release.1.release = (s.release.1, [], Except.error PyErr.logicErrorDoubleFree) := by
  unfold SyncTRTInfer.release
  simp [hA, hI, hO]

/-- Witness for C2 at the freshly constructed executor. -/
theorem release_twice_second_errors_witness :
    freshExec.allocated = true ∧ freshExec.dInFreed = false ∧
    freshExec.dOutFreed = false ∧
    (freshExec.release.2.2 = Except.ok () ∧
      freshExec.release.1.release =
        (freshExec.release.1, [], Except.error PyErr.logicErrorDoubleFree)) :=
  ⟨rfl, rfl, rfl, release_twice_second_errors freshExec rfl rfl rfl⟩

/-- C3 counterexample: release on an executor whose construction failed
before the buffers were allocated does not succeed — the first attribute
access raises AttributeError — refuting the claim that release succeeds on a
partway-constructed executor. -/
theorem release_halfBuilt_cex :
    halfBuilt.release.2.2 = Except.error PyErr.attributeError := rfl

/-- C3 (amended): on an executor whose buffer allocation never ran, release
fails with AttributeError and changes nothing; and the calling flow invokes
release only when the executor name was bound, so a failure path on which
construction itself failed skips release entirely, while every failure path
past construction routes through it. -/
theorem release_after_failed_alloc (s : SyncTRTInfer) (h : s.allocated = false) :
    s.release = (s, [], Except.error PyErr.attributeError) ∧
    mainFinally none = none ∧
    mainFinally (some s) = some s.release := by
  refine ⟨?_, rfl, rfl⟩
  unfold SyncTRTInfer.release
  simp [h]

/-- Witness for C3 at the partway-constructed executor. -/
theorem release_after_failed_alloc_witness :
    halfBuilt.allocated = false ∧
    (halfBuilt.release = (halfBuilt, [], Except.error PyErr.attributeError) ∧
      mainFinally none = none ∧
      mainFinally (some halfBuilt) = some halfBuilt.release) :=
  ⟨rfl, release_after_failed_alloc halfBuilt rfl⟩

/-- C5 counterexample: the event order release actually performs on a live
executor is not the claimed device buffers, then handle (context), then plan
(engine). -/
theorem release_order_cex :
    freshExec.release.2.1 ≠
      [RelEvent.freeDIn, RelEvent.freeDOut, RelEvent.clearContext,
        RelEvent.clearEngine] := by
  decide

/-- C5 (amended): release performs, in this order: free the input device
buffer, free the output device buffer, clear the plan (engine) reference,
clear the handle (context) reference — device buffers first, then the plan,
then the handle. -/
theorem release_event_order (s : SyncTRTInfer)
    (hA : s.allocated = true) (hI : s.dInFreed = false) (hO : s.dOutFreed = false) :
    s.release.2.1 =
      [RelEvent.freeDIn, RelEvent.freeDOut, RelEvent.clearEngine,
        RelEvent.clearContext] := by
  unfold SyncTRTInfer.release
  simp [hA, hI, hO]

/-- Witness for C5 at the freshly constructed executor. -/
theorem release_event_order_witness :
    freshExec.allocated = true ∧ freshExec.dInFreed = false ∧
    freshExec.dOutFreed = false ∧
    freshExec.release.2.1 =
      [RelEvent.freeDIn, RelEvent.freeDOut, RelEvent.clearEngine,
        RelEvent.clearContext] :=
  ⟨rfl, rfl, rfl, release_event_order freshExec rfl rfl rfl⟩

/-- C1: with a live executor holding a caller array of shape (1,3,224,224)
and dtype float32, infer succeeds and returns a (1,1000) float32 tensor,
produced by the strict sequence recorded in the event trace: copy of the
flattened input into the pinned host input buffer, synchronous host to device
copy, blocking execution against the fixed binding pair, synchronous device
to host copy into the pinned host output buffer, reshape to (1,1000).  The
buffer contents after the call witness each step: both input buffers hold the
flattened input, both output buffers hold the engine result, and the returned
tensor is that result reshaped. -/
theorem infer_valid_input_sequence (engineFn : List ℚ → List ℚ) (s : SyncTRTInfer)
    (hlen : ∀ v, (engineFn v).length = 1000)
    (_hA : s.allocated = true) (_hI : s.dInFreed = false) (_hO : s.dOutFreed = false)
    (hBuf : (s.mem Loc.hOut).dtype = DType.float32)
    (hsh : (s.mem Loc.argIn).shape = INPUT_SHAPE)
    (hdt : (s.mem Loc.argIn).dtype = DType.float32) :
    ∃ s' out,
      s.infer engineFn = (s',
        [InfEvent.copyInputToHost, InfEvent.memcpyHtoD, InfEvent.executeV2,
          InfEvent.memcpyDtoH, InfEvent.reshapeOutput],
        Except.ok out) ∧
      bindings = [Loc.dIn, Loc.dOut] ∧
      (s'.mem Loc.hIn).data = (s.mem Loc.argIn).data ∧
      (s'.mem Loc.dIn).data = (s.mem Loc.argIn).data ∧
      (s'.mem Loc.dOut).data = engineFn (s.mem Loc.argIn).data ∧
      (s'.mem Loc.hOut).data = engineFn (s.mem Loc.argIn).data ∧
      out.shape = OUTPUT_SHAPE ∧ out.dtype = DType.float32 ∧
      out.data = engineFn (s.mem Loc.argIn).data ∧
      out.data.length = 1000 := by
  have hc : (s.mem Loc.argIn).shape = INPUT_SHAPE ∧
      (s.mem Loc.argIn).dtype = DType.float32 := ⟨hsh, hdt⟩
  unfold SyncTRTInfer.infer
  rw [if_pos hc]
  refine ⟨_, _, rfl, rfl, ?_, ?_, ?_, ?_, ?_, ?_, ?_, ?_⟩ <;>
    simp [writeData, bindings, hBuf, hlen]

/-- A caller array of the valid fixed shape and dtype, filled with zeros. -/
def zeroInput : NTensor :=
  { shape := [1, 3, 224, 224], dtype := DType.float32
    data := List.replicate (1 * 3 * 224 * 224) 0 }

/-- A live executor whose caller array is zeroInput. -/
def zeroInputExec : SyncTRTInfer :=
  { freshExec with mem := fun l => if l = Loc.argIn then zeroInput else freshExec.mem l }

/-- A constant engine function producing 1000 zeros, standing in for the
compiled plan in witnesses. -/
def constEngine : List ℚ → List ℚ := fun _ => List.replicate 1000 0

/-- Witness for C1 at the zero input and the constant engine function. -/
theorem infer_valid_input_sequence_witness :
    (∀ v, (constEngine v).length = 1000) ∧
    zeroInputExec.allocated = true ∧ zeroInputExec.dInFreed = false ∧
    zeroInputExec.dOutFreed = false ∧
    (zeroInputExec.mem Loc.hOut).dtype = DType.float32 ∧
    (zeroInputExec.mem Loc.argIn).shape = INPUT_SHAPE ∧
    (zeroInputExec.mem Loc.argIn).dtype = DType.float32 ∧
    (∃ s' out,
      zeroInputExec.infer constEngine = (s',
        [InfEvent.copyInputToHost, InfEvent.memcpyHtoD, InfEvent.executeV2,
          InfEvent.memcpyDtoH, InfEvent.reshapeOutput],
        Except.ok out) ∧
      bindings = [Loc.dIn, Loc.dOut] ∧
      (s'.mem Loc.hIn).data = (zeroInputExec.mem Loc.argIn).data ∧
      (s'.mem Loc.dIn).data = (zeroInputExec.mem Loc.argIn).data ∧
      (s'.mem Loc.dOut).data = constEngine (zeroInputExec.mem Loc.argIn).data ∧
      (s'.mem Loc.hOut).data = constEngine (zeroInputExec.mem Loc.argIn).data ∧
      out.shape = OUTPUT_SHAPE ∧ out.dtype = DType.float32 ∧
      out.data = constEngine (zeroInputExec.mem Loc.argIn).data ∧
      out.data.length = 1000) :=
  ⟨fun _ => List.length_replicate 1000 0, rfl, rfl, rfl, rfl, rfl, rfl,
    infer_valid_input_sequence constEngine zeroInputExec
      (fun _ => List.length_replicate 1000 0) rfl rfl rfl rfl rfl rfl⟩

/-- C4: when the caller array has a shape other than (1,3,224,224) or a dtype
other than float32, infer fails with the shape-mismatch error, emits no
buffer-copy event, and leaves the entire state — in particular both host
buffers and both device buffers — unchanged. -/
theorem infer_mismatch_no_copy (engineFn : List ℚ → List ℚ) (s : SyncTRTInfer)
    (h : (s.mem Loc.argIn).shape ≠ INPUT_SHAPE ∨ (s.mem Loc.argIn).dtype ≠ DType.float32) :
    s.infer engineFn = (s, [], Except.error InferErr.shapeMismatch) ∧
    (s.infer engineFn).1.mem Loc.hIn = s.mem Loc.hIn ∧
    (s.infer engineFn).1.mem Loc.hOut = s.mem Loc.hOut ∧
    (s.infer engineFn).1.mem Loc.dIn = s.mem Loc.dIn ∧
    (s.infer engineFn).1.mem Loc.dOut = s.mem Loc.dOut := by
  have hc : ¬((s.mem Loc.argIn).shape = INPUT_SHAPE ∧
      (s.mem Loc.argIn).dtype = DType.float32) := by
    rcases h with h | h
    · exact fun hand => h hand.1
    · exact fun hand => h hand.2
  have he : s.infer engineFn = (s, [], Except.error InferErr.shapeMismatch) := by
    unfold SyncTRTInfer.infer
    rw [if_neg hc]
  exact ⟨he, by rw [he], by rw [he], by rw [he], by rw [he]⟩

/-- A caller array whose shape has a wrong batch dimension. -/
def badInput : NTensor :=
  { shape := [2, 3, 224, 224], dtype := DType.float32, data := [] }

/-- A live executor whose caller array is badInput. -/
def badInputExec : SyncTRTInfer :=
  { freshExec with mem := fun l => if l = Loc.argIn then badInput else freshExec.mem l }

/-- Witness for C4 at a (2,3,224,224) caller array. -/
theorem infer_mismatch_no_copy_witness :
    ((badInputExec.mem Loc.argIn).shape ≠ INPUT_SHAPE ∨
      (badInputExec.mem Loc.argIn).dtype ≠ DType.float32) ∧
    (badInputExec.infer constEngine =
        (badInputExec, [], Except.error InferErr.shapeMismatch) ∧
      (badInputExec.infer constEngine).1.mem Loc.hIn = badInputExec.mem Loc.hIn ∧
      (badInputExec.infer constEngine).1.mem Loc.hOut = badInputExec.mem Loc.hOut ∧
      (badInputExec.infer constEngine).1.mem Loc.dIn = badInputExec.mem Loc.dIn ∧
      (badInputExec.infer constEngine).1.mem Loc.dOut = badInputExec.mem Loc.dOut) :=
  ⟨Or.inl (by decide), infer_mismatch_no_copy constEngine badInputExec
    (Or.inl (by decide))⟩

/-- C10: infer never modifies the caller array: whatever the input (valid or
not), the array at the caller location — its contents, shape and dtype — is
identical before and after the call; the buffers are the only written
locations. -/
theorem infer_preserves_caller_input (engineFn : List ℚ → List ℚ) (s : SyncTRTInfer) :
    (s.infer engineFn).1.mem Loc.argIn = s.mem Loc.argIn := by
  unfold SyncTRTInfer.infer
  by_cases hc : (s.mem Loc.argIn).shape = INPUT_SHAPE ∧
      (s.mem Loc.argIn).dtype = DType.float32
  · rw [if_pos hc]
    simp [writeData, bindings]
  · rw [if_neg hc]

/-- Element lookup in a mapped range list. -/
lemma getD_range_map (f : Nat → ℚ) (n i : Nat) (h : i < n) :
    ((List.range n).map f).getD i 0 = f i := by
  rw [List.getD_eq_getElem?_getD]
  simp [List.getElem?_map, List.getElem?_range, h]

/-- The resized image has the requested height, on both branches. -/
lemma resizeImg_h (H W : Nat) (im : Image) : (resizeImg H W im).h = H := by
  by_cases hc : im.h = H ∧ im.w = W
  · simp [resizeImg, hc, hc.1]
  · simp [resizeImg, hc]

/-- The resized image has the requested width, on both branches. -/
lemma resizeImg_w (H W : Nat) (im : Image) : (resizeImg H W im).w = W := by
  by_cases hc : im.h = H ∧ im.w = W
  · simp [resizeImg, hc, hc.2]
  · simp [resizeImg, hc]

/-- The data field of the flattened tensor, spelled out. -/
lemma flattenNCHW_data (t : CHW) :
    (flattenNCHW t).data = (List.range (t.ch * t.h * t.w)).map fun idx =>
      t.val (idx / (t.h * t.w)) (idx % (t.h * t.w) / t.w) (idx % t.w) := rfl

/-- The shape field of the flattened tensor, spelled out. -/
lemma flattenNCHW_shape (t : CHW) :
    (flattenNCHW t).shape = [1, t.ch, t.h, t.w] := rfl

/-- The dtype field of the flattened tensor. -/
lemma flattenNCHW_dtype (t : CHW) : (flattenNCHW t).dtype = DType.float32 := rfl

/-- Entry (c, i, j) of the preprocessed tensor of any decoded image: the
centre-cropped pixel of the resized RGB image, scaled by 255 and normalised
with the channel constants. -/
lemma preprocessed_getD (img : Image) (c i j : Nat)
    (hc : c < 3) (hi : i < 224) (hj : j < 224) :
    (flattenNCHW (normalizeT MEAN STD (toTensorT (centerCrop 224 224
        (resizeImg 256 256 (cvtColorBGR2RGB img)))))).data.getD
      ((c * 224 + i) * 224 + j) 0 =
      (((resizeImg 256 256 (cvtColorBGR2RGB img)).pix (i + 16) (j + 16) c : ℚ) / 255
        - MEAN.getD c 0) / STD.getD c 0 := by
  have hb : (c * 224 + i) * 224 + j < 3 * (224 * 224) := by omega
  have e1 : ((c * 224 + i) * 224 + j) / (224 * 224) = c := by omega
  have e2 : ((c * 224 + i) * 224 + j) % (224 * 224) / 224 = i := by omega
  have e3 : ((c * 224 + i) * 224 + j) % 224 = j := by omega
  simp only [flattenNCHW, normalizeT, toTensorT, centerCrop]
  rw [getD_range_map _ _ _ hb]
  simp only [e1, e2, e3]
  rw [resizeImg_h, resizeImg_w]

/-- Resizing the colour-converted solid image to its own size is the
identity (the library shortcut applies). -/
lemma resize_solid (r g b : ℕ) :
    resizeImg 256 256 (cvtColorBGR2RGB (solidImage256 r g b)) =
      cvtColorBGR2RGB (solidImage256 r g b) := by
  simp [resizeImg, cvtColorBGR2RGB, solidImage256]

/-- Each channel mean of the preprocessed solid image equals its single
normalised channel value. -/
lemma solid_mean_channel (r g b : ℕ) (c : Nat) (hc : c < 3) :
    channelMean (flattenNCHW (normalizeT MEAN STD (toTensorT (centerCrop 224 224
        (resizeImg 256 256 (cvtColorBGR2RGB (solidImage256 r g b))))))) c =
      (((solidImage256 r g b).pix 0 0 (2 - c) : ℚ) / 255 - MEAN.getD c 0) / STD.getD c 0 := by
  unfold channelMean
  have key : ∀ k ∈ Finset.range (224 * 224),
      (flattenNCHW (normalizeT MEAN STD (toTensorT (centerCrop 224 224
        (resizeImg 256 256 (cvtColorBGR2RGB (solidImage256 r g b))))))).data.getD
          (c * (224 * 224) + k) 0 =
        (((solidImage256 r g b).pix 0 0 (2 - c) : ℚ) / 255 - MEAN.getD c 0) / STD.getD c 0 := by
    intro k hk
    have hk' : k < 224 * 224 := Finset.mem_range.mp hk
    have hidx : c * (224 * 224) + k = (c * 224 + k / 224) * 224 + k % 224 := by omega
    rw [hidx, preprocessed_getD _ c (k / 224) (k % 224) hc (by omega) (by omega)]
    rw [resize_solid]
    rfl
  rw [Finset.sum_congr rfl key, Finset.sum_const, Finset.card_range, nsmul_eq_mul]
  have hN : ((224 * 224 : ℕ) : ℚ) = (224 * 224 : ℚ) := by norm_num
  rw [hN, mul_div_cancel_left₀]
  norm_num

/-- C7: preprocess fails with the image-read error exactly on a failed
decode, and on every decoded image returns a (1,3,224,224) float32 tensor of
150528 values whose entry at channel c, row i, column j is the centre-cropped
pixel of the 256 by 256 resized RGB image, scaled to the unit interval and
normalised with the fixed per-channel MEAN and STD constants — that is, the
tensor produced by exactly the decode, RGB conversion, resize, centre-crop,
scale and normalise steps. -/
theorem preprocess_pipeline_spec :
    preprocess none = Except.error PreErr.imageReadError ∧
    ∀ img, ∃ t, preprocess (some img) = Except.ok t ∧
      t.shape = [1, 3, 224, 224] ∧ t.dtype = DType.float32 ∧
      t.data.length = 3 * 224 * 224 ∧
      ∀ c i j, c < 3 → i < 224 → j < 224 →
        t.data.getD ((c * 224 + i) * 224 + j) 0 =
          (((resizeImg 256 256 (cvtColorBGR2RGB img)).pix (i + 16) (j + 16) c : ℚ) / 255
            - MEAN.getD c 0) / STD.getD c 0 := by
  refine ⟨rfl, fun img => ⟨_, rfl, ?_, ?_, ?_, ?_⟩⟩
  · rw [flattenNCHW_shape]
    rfl
  · rw [flattenNCHW_dtype]
  · rw [flattenNCHW_data, List.length_map, List.length_range]
    rfl
  · intro c i j hc hi hj
    exact preprocessed_getD img c i j hc hi hj

/-- Witness for C7 at a concrete solid image, with the entry formula
instantiated at channel 0, row 0, column 0. -/
theorem preprocess_pipeline_spec_witness :
    ∃ t, preprocess (some (solidImage256 5 6 7)) = Except.ok t ∧
      t.shape = [1, 3, 224, 224] ∧ t.dtype = DType.float32 ∧
      t.data.length = 3 * 224 * 224 ∧
      t.data.getD ((0 * 224 + 0) * 224 + 0) 0 =
        (((resizeImg 256 256 (cvtColorBGR2RGB (solidImage256 5 6 7))).pix
            (0 + 16) (0 + 16) 0 : ℚ) / 255
          - MEAN.getD 0 0) / STD.getD 0 0 := by
  obtain ⟨t, h1, h2, h3, h4, h5⟩ := preprocess_pipeline_spec.2 (solidImage256 5 6 7)
  exact ⟨t, h1, h2, h3, h4, h5 0 0 0 (by norm_num) (by norm_num) (by norm_num)⟩

/-- C6 counterexample: the two preprocessing functions diverge on an
undecodable image — the engine backend fails with its image-read error, the
onnx backend with the colour-conversion error — so their behaviour is not
identical for every input image path. -/
theorem preprocess_backends_diverge_cex :
    preprocess none ≠ preprocess_image none := by
  intro h
  have h2 : PreErr.imageReadError = PreErr.cvtColorError :=
    Except.error.inj h
  cases h2

/-- C6 (amended): for every image both backends decode, the two preprocessing
functions return exactly equal (1,3,224,224) float32 tensors, but on a failed
decode the backends diverge: the engine backend fails with its image-read
error while the onnx backend, having no decode check, errors inside colour
conversion. -/
theorem preprocess_backends_agree_on_decoded :
    (∀ img, preprocess (some img) = preprocess_image (some img)) ∧
    preprocess none = Except.error PreErr.imageReadError ∧
    preprocess_image none = Except.error PreErr.cvtColorError :=
  ⟨fun _ => rfl, rfl, rfl⟩

/-- C9: preprocess is deterministic — the decoder is a fixed function of the
image bytes and the transform pipeline is a pure function, so two calls on
identical image bytes return identical tensors. -/
theorem preprocess_two_runs (decode : List ℕ → Option Image) (b1 b2 : List ℕ)
    (h : b1 = b2) : preprocess (decode b1) = preprocess (decode b2) := by
  rw [h]

/-- Witness for C9 at a concrete byte list and decoder. -/
theorem preprocess_two_runs_witness :
    ([] : List ℕ) = ([] : List ℕ) ∧
    preprocess ((fun _ => some (solidImage256 1 2 3)) ([] : List ℕ)) =
      preprocess ((fun _ => some (solidImage256 1 2 3)) ([] : List ℕ)) :=
  ⟨rfl, preprocess_two_runs (fun _ => some (solidImage256 1 2 3)) [] [] rfl⟩

/-- C8: a solid colour 256 by 256 RGB image of colour (r, g, b) preprocesses
successfully to a tensor whose per-channel means are exactly
(value/255 - MEAN[c]) / STD[c] for the corresponding channel values — exact
equality in the rational model, hence within any tolerance. -/
theorem preprocess_solid_channel_mean (r g b : ℕ) :
    ∃ t, preprocess (some (solidImage256 r g b)) = Except.ok t ∧
      channelMean t 0 = ((r : ℚ) / 255 - MEAN.getD 0 0) / STD.getD 0 0 ∧
      channelMean t 1 = ((g : ℚ) / 255 - MEAN.getD 1 0) / STD.getD 1 0 ∧
      channelMean t 2 = ((b : ℚ) / 255 - MEAN.getD 2 0) / STD.getD 2 0 := by
  refine ⟨_, rfl, ?_, ?_, ?_⟩
  · exact solid_mean_channel r g b 0 (by norm_num)
  · exact solid_mean_channel r g b 1 (by norm_num)
  · exact solid_mean_channel r g b 2 (by norm_num)
